import Mathlib

/-!
Shallow embedding of the poster-editor core (App.tsx, CanvasArea.tsx) and
proofs about its state-mutation and rendering contracts.

Numbers that are JavaScript floats in the source are modelled as rationals
(exact arithmetic); JavaScript object spread over a partial record is
modelled by patch structures whose fields are `Option`s, merged field-wise
with `Option.getD`.  Each state-mutating React handler becomes a pure
function `CanvasState → CanvasState` (the `setState(prev => ...)` body).
-/

namespace PhotoEdit

/-- Aspect ratios of the canvas (types.ts). -/
inductive AspectRatio where
  | SQUARE
  | STORY
deriving DecidableEq, Repr

/-- Horizontal text alignment of a text layer (types.ts). -/
inductive TextAlign where
  | left
  | center
  | right
deriving DecidableEq, Repr

/-- Text flow direction of a text layer (types.ts). -/
inductive Orientation where
  | horizontal
  | vertical
deriving DecidableEq, Repr

/-- Background translation and uniform scale (App.tsx state). -/
structure BackgroundTransform where
  x : ℚ
  y : ℚ
  scale : ℚ
deriving DecidableEq, Repr

/-- One text layer (types.ts `TextLayer`). -/
structure TextLayer where
  id : String
  text : String
  x : ℚ
  y : ℚ
  fontSize : ℚ
  color : String
  fontWeight : String
  fontFamily : String
  textAlign : TextAlign
  orientation : Orientation
deriving DecidableEq, Repr

/-- The mask rectangle, center-anchored in image-intrinsic coordinates
(types.ts `MaskRect`). -/
structure MaskRect where
  x : ℚ
  y : ℚ
  width : ℚ
  height : ℚ
deriving DecidableEq, Repr

/-- The aggregate editor state (App.tsx `useState<CanvasState>`). -/
structure CanvasState where
  backgroundImage : Option String
  backgroundTransform : BackgroundTransform
  aspectRatio : AspectRatio
  layers : List TextLayer
  selectedLayerId : Option String
  isMaskMode : Bool
  maskRect : Option MaskRect
deriving DecidableEq, Repr

/-- Partial update for `BackgroundTransform` (TypeScript
`Partial<\x7bx,y,scale\x7d>` merged by object spread). -/
structure BackgroundTransformPatch where
  x : Option ℚ := none
  y : Option ℚ := none
  scale : Option ℚ := none
deriving DecidableEq, Repr

/-- Partial update for `TextLayer` (TypeScript `Partial<TextLayer>`). -/
structure TextLayerPatch where
  id : Option String := none
  text : Option String := none
  x : Option ℚ := none
  y : Option ℚ := none
  fontSize : Option ℚ := none
  color : Option String := none
  fontWeight : Option String := none
  fontFamily : Option String := none
  textAlign : Option TextAlign := none
  orientation : Option Orientation := none
deriving DecidableEq, Repr

/-- Partial update for `MaskRect` (TypeScript `Partial<MaskRect>`). -/
structure MaskRectPatch where
  x : Option ℚ := none
  y : Option ℚ := none
  width : Option ℚ := none
  height : Option ℚ := none
deriving DecidableEq, Repr

/-- JavaScript object spread over a text layer, field by field. -/
def applyLayerPatch (l : TextLayer) (u : TextLayerPatch) : TextLayer :=
  { id := u.id.getD l.id
    text := u.text.getD l.text
    x := u.x.getD l.x
    y := u.y.getD l.y
    fontSize := u.fontSize.getD l.fontSize
    color := u.color.getD l.color
    fontWeight := u.fontWeight.getD l.fontWeight
    fontFamily := u.fontFamily.getD l.fontFamily
    textAlign := u.textAlign.getD l.textAlign
    orientation := u.orientation.getD l.orientation }

/-- JavaScript object spread over a mask rectangle, field by field. -/
def applyMaskPatch (m : MaskRect) (u : MaskRectPatch) : MaskRect :=
  { x := u.x.getD m.x
    y := u.y.getD m.y
    width := u.width.getD m.width
    height := u.height.getD m.height }

/-- Reference viewport width of the interactive canvas for an aspect ratio
(App.tsx line 36 and CanvasArea.tsx getDimensions): 600 for 1:1 and
600 * 9 / 16 for 9:16. -/
def uiWidthFor : AspectRatio → ℚ
  | .SQUARE => 600
  | .STORY => 600 * 9 / 16

/-- handleAspectRatioChange (App.tsx lines 22-24). -/
def handleAspectRatioChange (ratio : AspectRatio) (s : CanvasState) : CanvasState :=
  { s with aspectRatio := ratio }

/-- State update applied by handleImageUpload once the new image has been
decoded (App.tsx lines 34-48): cover scale, zero offset, mask state
cleared.  The decoded natural size is passed in as `imgWidth`, `imgHeight`. -/
def handleImageUpload (imgSrc : String) (imgWidth imgHeight : ℚ)
    (s : CanvasState) : CanvasState :=
  let uiHeight : ℚ := 600
  let uiWidth : ℚ := uiWidthFor s.aspectRatio
  let scaleX := uiWidth / imgWidth
  let scaleY := uiHeight / imgHeight
  let scale := max scaleX scaleY
  { s with backgroundImage := some imgSrc
           backgroundTransform := { x := 0, y := 0, scale := scale }
           isMaskMode := false
           maskRect := none }

/-- updateBackgroundTransform (App.tsx lines 57-62). -/
def updateBackgroundTransform (u : BackgroundTransformPatch) (s : CanvasState) :
    CanvasState :=
  { s with backgroundTransform :=
      { x := u.x.getD s.backgroundTransform.x
        y := u.y.getD s.backgroundTransform.y
        scale := u.scale.getD s.backgroundTransform.scale } }

/-- updateBackgroundImage (App.tsx lines 64-69): replaces only the image
string, touching no other field. -/
def updateBackgroundImage (newImage : String) (s : CanvasState) : CanvasState :=
  { s with backgroundImage := some newImage }

/-- addLayer (App.tsx lines 71-90); the random id produced by nanoid is
passed in as `newId`. -/
def addLayer (newId : String) (s : CanvasState) : CanvasState :=
  let newLayer : TextLayer :=
    { id := newId
      text := "默认文字"
      x := 50
      y := 50
      fontSize := 48
      color := "#ffffff"
      fontWeight := "bold"
      fontFamily := "Inter"
      textAlign := .left
      orientation := .horizontal }
  { s with layers := s.layers ++ [newLayer]
           selectedLayerId := some newLayer.id
           isMaskMode := false }

/-- updateLayer (App.tsx lines 92-97). -/
def updateLayer (id : String) (u : TextLayerPatch) (s : CanvasState) : CanvasState :=
  { s with layers := s.layers.map (fun l => if l.id == id then applyLayerPatch l u else l) }

/-- deleteLayer (App.tsx lines 99-105): filters the layer list and always
clears the selection. -/
def deleteLayer (id : String) (s : CanvasState) : CanvasState :=
  { s with layers := s.layers.filter (fun l => l.id != id)
           selectedLayerId := none }

/-- selectLayer (App.tsx lines 107-109): writes the id verbatim and touches
nothing else. -/
def selectLayer (id : Option String) (s : CanvasState) : CanvasState :=
  { s with selectedLayerId := id }

/-- toggleMaskMode (App.tsx lines 113-134). -/
def toggleMaskMode (active : Bool) (s : CanvasState) : CanvasState :=
  let initialMask :=
    if active && s.maskRect.isNone then
      some { x := 0, y := 0, width := 200, height := 100 }
    else s.maskRect
  { s with isMaskMode := active
           maskRect := if active then initialMask else none
           selectedLayerId := none }

/-- updateMaskRect (App.tsx lines 136-141). -/
def updateMaskRect (u : MaskRectPatch) (s : CanvasState) : CanvasState :=
  { s with maskRect := s.maskRect.map (fun m => applyMaskPatch m u) }

/-- Result of burning the mask marker into the background image for AI
inpainting: top-left corner and size of the red rectangle, in image
pixels (executeMaskedRemoval, App.tsx lines 170-176). -/
structure BurnRect where
  drawX : ℚ
  drawY : ℚ
  width : ℚ
  height : ℚ
deriving DecidableEq, Repr

/-- executeMaskedRemoval (App.tsx lines 143-183), up to the point where the
burned image is handed to the AI collaborator: returns the rectangle
painted in 50%-alpha red, or nothing when the guard on line 145 declines.
The decoded natural size of the background image is passed in. -/
def executeMaskedRemoval (imgWidth imgHeight : ℚ) (s : CanvasState) :
    Option BurnRect :=
  match s.backgroundImage, s.maskRect with
  | some _, some m =>
      some { drawX := imgWidth / 2 + m.x - m.width / 2
             drawY := imgHeight / 2 + m.y - m.height / 2
             width := m.width
             height := m.height }
  | _, _ => none

/-- Pointer-move step of an active text-layer drag (CanvasArea.tsx lines
513-524): the raw screen movement delta is divided by the workspace view
scale only, and added to the selected layer through updateLayer. -/
def layerDragMove (s : CanvasState) (viewScale movementX movementY : ℚ) :
    CanvasState :=
  match s.selectedLayerId with
  | none => s
  | some selId =>
    match s.layers.find? (fun l => l.id == selId) with
    | none => s
    | some currentLayer =>
      let deltaX := movementX / viewScale
      let deltaY := movementY / viewScale
      updateLayer selId
        { x := some (currentLayer.x + deltaX), y := some (currentLayer.y + deltaY) } s

/-- Pointer-move step of an active mask-resize gesture (CanvasArea.tsx lines
466-500, resize branch): screen delta since gesture start divided by
viewScale * backgroundScale, size clamped to a minimum of 20, and the
center shifted by half the size delta. -/
def maskResizeMove (s : CanvasState) (initialRect : MaskRect)
    (startX startY clientX clientY viewScale bgScale : ℚ) : CanvasState :=
  let totalScale := viewScale * bgScale
  let deltaScreenX := clientX - startX
  let deltaScreenY := clientY - startY
  let deltaImageX := deltaScreenX / totalScale
  let deltaImageY := deltaScreenY / totalScale
  let newWidth := max 20 (initialRect.width + deltaImageX)
  let newHeight := max 20 (initialRect.height + deltaImageY)
  let shiftX := (newWidth - initialRect.width) / 2
  let shiftY := (newHeight - initialRect.height) / 2
  updateMaskRect
    { width := some newWidth
      height := some newHeight
      x := some (initialRect.x + shiftX)
      y := some (initialRect.y + shiftY) } s

/-- Split a character list at every newline character, keeping empty pieces:
the semantics of JavaScript String.split over a one-character separator. -/
def splitChars : List Char → List (List Char)
  | [] => [[]]
  | c :: rest =>
    if c = '\n' then [] :: splitChars rest
    else
      match splitChars rest with
      | [] => [[c]]
      | line :: ls => (c :: line) :: ls

/-- JavaScript `text.split('\n')` on a Lean string. -/
def jsSplitLines (s : String) : List String :=
  (splitChars s.data).map (fun cs => String.mk cs)

/-- One fillText call of the export renderer: the drawn text fragment and
its (x, y) position in export pixels. -/
structure TextDrawCall where
  text : String
  x : ℚ
  y : ℚ
deriving DecidableEq, Repr

/-- All fillText calls that exportImage emits for one layer (App.tsx lines
218-243).  Vertical orientation walks lines as right-to-left columns and
stacks the characters of each column downward. -/
def layerDrawCalls (layer : TextLayer) (scaleFactor : ℚ) : List TextDrawCall :=
  let lineHeight := layer.fontSize * scaleFactor * (6 / 5)
  match layer.orientation with
  | .vertical =>
    let lines := jsSplitLines layer.text
    lines.enum.flatMap (fun (lineIndex, line) =>
      let lineX := layer.x * scaleFactor - (lineIndex : ℚ) * lineHeight
      let chars := line.toList
      chars.enum.map (fun (charIndex, c) =>
        let charX := lineX + (lineHeight - layer.fontSize * scaleFactor) / 2
        let charY := layer.y * scaleFactor + (charIndex : ℚ) * lineHeight
        { text := String.mk [c], x := charX, y := charY }))
  | .horizontal =>
    let lines := jsSplitLines layer.text
    lines.enum.map (fun (index, line) =>
      { text := line
        x := layer.x * scaleFactor
        y := layer.y * scaleFactor + (index : ℚ) * lineHeight })

/-- Parameters of the single drawImage call that paints the background into
the export canvas (App.tsx lines 208-213). -/
structure BackgroundDraw where
  centerX : ℚ
  centerY : ℚ
  offsetX : ℚ
  offsetY : ℚ
  scale : ℚ
deriving DecidableEq, Repr

/-- The output artifact of exportImage: canvas size, background draw
parameters, and the text draw calls of every layer in order. -/
structure ExportArtifact where
  width : ℚ
  height : ℚ
  background : BackgroundDraw
  textCalls : List TextDrawCall
deriving DecidableEq, Repr

/-- exportImage (App.tsx lines 187-249) as a pure reader of the state:
nothing is produced when no background image is loaded (guard on line
190); otherwise the artifact records every canvas operation the export
performs.  `domWidth` is the measured on-screen width of the canvas
element, with the source's fallback of the nominal logical width. -/
def exportImage (s : CanvasState) (domWidth : Option ℚ) : Option ExportArtifact :=
  match s.backgroundImage with
  | none => none
  | some _ =>
    let exportHeight : ℚ := 1920
    let exportWidth : ℚ := match s.aspectRatio with | .SQUARE => 1920 | .STORY => 1080
    let uiHeight : ℚ := 600
    let ratio := exportHeight / uiHeight
    let domW := domWidth.getD (match s.aspectRatio with | .SQUARE => 600 | .STORY => 675 / 2)
    let scaleFactor := exportWidth / domW
    some { width := exportWidth
           height := exportHeight
           background :=
             { centerX := exportWidth / 2
               centerY := exportHeight / 2
               offsetX := s.backgroundTransform.x * ratio
               offsetY := s.backgroundTransform.y * ratio
               scale := s.backgroundTransform.scale * ratio }
           textCalls := s.layers.flatMap (fun l => layerDrawCalls l scaleFactor) }

/-- The whole export handler as a state transition: it returns the optional
artifact and the (unchanged) state — exportImage never calls setState. -/
def exportStep (s : CanvasState) (domWidth : Option ℚ) :
    Option ExportArtifact × CanvasState :=
  (exportImage s domWidth, s)

/-- Mutual-exclusion invariant between text-layer selection and mask mode. -/
def selectionMaskExclusive (s : CanvasState) : Prop :=
  s.selectedLayerId = none ∨ s.isMaskMode = false

instance (s : CanvasState) : Decidable (selectionMaskExclusive s) := by
  unfold selectionMaskExclusive
  infer_instance

/-- The initial editor state (App.tsx lines 9-17). -/
def initialState : CanvasState :=
  { backgroundImage := none
    backgroundTransform := { x := 0, y := 0, scale := 1 }
    aspectRatio := .SQUARE
    layers := []
    selectedLayerId := none
    isMaskMode := false
    maskRect := none }

/-- A sample text layer used in concrete evaluations. -/
def layerA : TextLayer :=
  { id := "a"
    text := "SALE"
    x := 50
    y := 50
    fontSize := 48
    color := "#ffffff"
    fontWeight := "bold"
    fontFamily := "Inter"
    textAlign := .left
    orientation := .horizontal }

/-- A reachable state with one layer present and selected. -/
def selectedOneLayerState : CanvasState :=
  { backgroundImage := some "bg"
    backgroundTransform := { x := 0, y := 0, scale := 1 }
    aspectRatio := .SQUARE
    layers := [layerA]
    selectedLayerId := some "a"
    isMaskMode := false
    maskRect := none }

/-- A reachable state with mask mode active and no layer selected. -/
def maskModeState : CanvasState :=
  { backgroundImage := some "bg"
    backgroundTransform := { x := 0, y := 0, scale := 1 }
    aspectRatio := .SQUARE
    layers := [layerA]
    selectedLayerId := none
    isMaskMode := true
    maskRect := some { x := 0, y := 0, width := 200, height := 100 } }

/-- A state with mask mode active and a moved, resized mask. -/
def maskedState : CanvasState :=
  { backgroundImage := some "bg"
    backgroundTransform := { x := 0, y := 0, scale := 1 }
    aspectRatio := .SQUARE
    layers := []
    selectedLayerId := none
    isMaskMode := true
    maskRect := some { x := 30, y := 40, width := 100, height := 60 } }

/-- A state whose background transform and mask are not in their
just-loaded configuration. -/
def staleTransformState : CanvasState :=
  { backgroundImage := some "old"
    backgroundTransform := { x := 7, y := 3, scale := 2 }
    aspectRatio := .SQUARE
    layers := []
    selectedLayerId := none
    isMaskMode := true
    maskRect := some { x := 0, y := 0, width := 200, height := 100 } }

/-- A vertical-orientation layer with two lines of one character each. -/
def verticalLayer : TextLayer :=
  { id := "v"
    text := "A\nB"
    x := 10
    y := 20
    fontSize := 5
    color := "#ffffff"
    fontWeight := "bold"
    fontFamily := "Inter"
    textAlign := .left
    orientation := .vertical }

/-!
Helper lemmas shared by several claims.
-/

lemma filter_ne_id (xs : List TextLayer) (i : String) (h : ∀ p ∈ xs, p.id ≠ i) :
    xs.filter (fun l => l.id != i) = xs := by
  induction xs with
  | nil => rfl
  | cons a t ih =>
    have ha : (a.id != i) = true := bne_iff_ne.mpr (h a (by simp))
    simp only [List.filter_cons, ha, if_true, ih (fun p hp => h p (by simp [hp]))]

lemma map_update_ne (xs : List TextLayer) (i : String) (u : TextLayerPatch)
    (h : ∀ p ∈ xs, p.id ≠ i) :
    xs.map (fun l => if l.id == i then applyLayerPatch l u else l) = xs := by
  induction xs with
  | nil => rfl
  | cons a t ih =>
    have ha : (a.id == i) = false := beq_eq_false_iff_ne.mpr (h a (by simp))
    simp only [List.map_cons, ha, Bool.false_eq_true, if_false,
      ih (fun p hp => h p (by simp [hp]))]

lemma find_append_cons (pre post : List TextLayer) (l : TextLayer)
    (hpre : ∀ p ∈ pre, p.id ≠ l.id) :
    (pre ++ l :: post).find? (fun p => p.id == l.id) = some l := by
  induction pre with
  | nil => simp [List.find?]
  | cons a t ih =>
    have ha : (a.id == l.id) = false := beq_eq_false_iff_ne.mpr (hpre a (by simp))
    rw [List.cons_append]
    simp only [List.find?_cons, ha]
    exact ih (fun p hp => hpre p (by simp [hp]))

lemma mem_enum_get {α : Type} (xs : List α) (i : ℕ) (h : i < xs.length) :
    (i, xs.get ⟨i, h⟩) ∈ xs.enum := by
  rw [List.mk_mem_enum_iff_getElem?]
  exact List.getElem?_eq_getElem h

/-- C6: setMaskMode(true) with no existing mask synthesizes the default
rectangle x=0, y=0, width=200, height=100; setMaskMode(true) with an
existing mask preserves it unchanged; setMaskMode(false) always clears the
mask to none; and activation forces selectedLayerId to none. -/
theorem setMaskMode_contract (s : CanvasState) :
    (s.maskRect = none →
      (toggleMaskMode true s).maskRect = some { x := 0, y := 0, width := 200, height := 100 })
    ∧ (∀ m, s.maskRect = some m → (toggleMaskMode true s).maskRect = some m)
    ∧ (toggleMaskMode false s).maskRect = none
    ∧ (toggleMaskMode true s).selectedLayerId = none := by
  obtain ⟨bi, bt, ar, ly, sel, mm, mr⟩ := s
  refine ⟨?_, ?_, rfl, rfl⟩
  · intro h
    cases mr with
    | none => rfl
    | some m => exact absurd h (by simp)
  · intro m h
    cases mr with
    | none => exact absurd h (by simp)
    | some m2 =>
      have : m2 = m := by simpa using h
      subst this
      rfl

/-- C6 witness: activating mask mode on the initial state (no mask)
synthesizes the default rectangle. -/
theorem setMaskMode_contract_witness :
    initialState.maskRect = none
    ∧ (toggleMaskMode true initialState).maskRect
        = some { x := 0, y := 0, width := 200, height := 100 } :=
  ⟨rfl, (setMaskMode_contract initialState).1 rfl⟩

/-- C8: for a state with a background image and a mask, the burned
inpainting marker rectangle has top-left corner exactly at
imgWidth / 2 + mask.x - mask.width / 2 and
imgHeight / 2 + mask.y - mask.height / 2, with the mask's stored size. -/
theorem mask_burn_coordinates (s : CanvasState) (imgWidth imgHeight : ℚ)
    (img : String) (m : MaskRect)
    (hbg : s.backgroundImage = some img) (hm : s.maskRect = some m) :
    executeMaskedRemoval imgWidth imgHeight s
      = some { drawX := imgWidth / 2 + m.x - m.width / 2
               drawY := imgHeight / 2 + m.y - m.height / 2
               width := m.width
               height := m.height } := by
  unfold executeMaskedRemoval
  rw [hbg, hm]

/-- C8 witness: concrete burn rectangle for an 800 by 600 image and the
mask centered at (30, 40) with size 100 by 60. -/
theorem mask_burn_coordinates_witness :
    executeMaskedRemoval 800 600 maskedState
      = some { drawX := 800 / 2 + 30 - 100 / 2
               drawY := 600 / 2 + 40 - 60 / 2
               width := 100
               height := 60 } :=
  mask_burn_coordinates maskedState 800 600 "bg" { x := 30, y := 40, width := 100, height := 60 }
    rfl rfl

/-- C9: with no background image loaded, export produces no artifact and
leaves the state unchanged (the export handler is a pure reader of the
state and its guard declines before any output is produced). -/
theorem export_refusal (s : CanvasState) (domWidth : Option ℚ)
    (h : s.backgroundImage = none) :
    exportStep s domWidth = (none, s) := by
  unfold exportStep exportImage
  rw [h]

/-- C9 witness: exporting the initial (imageless) state yields nothing. -/
theorem export_refusal_witness :
    initialState.backgroundImage = none ∧ exportStep initialState none = (none, initialState) :=
  ⟨rfl, export_refusal initialState none rfl⟩

/-- C10: updateMaskRect on a state with no mask leaves the entire state
unchanged; with an existing mask it merges the partial field-wise
verbatim (each named field takes exactly the supplied value, with no
clamping; unnamed fields are unchanged). -/
theorem updateMaskRect_contract (s : CanvasState) (u : MaskRectPatch) :
    (s.maskRect = none → updateMaskRect u s = s)
    ∧ (∀ m, s.maskRect = some m →
        updateMaskRect u s
          = { s with maskRect := some { x := u.x.getD m.x
                                        y := u.y.getD m.y
                                        width := u.width.getD m.width
                                        height := u.height.getD m.height } }) := by
  constructor
  · intro h
    unfold updateMaskRect
    rw [h]
    rw [show (Option.map (fun m => applyMaskPatch m u) none : Option MaskRect) = none from rfl,
      ← h]
  · intro m h
    unfold updateMaskRect
    rw [h]
    rfl

/-- C10 witness: a width of 5 (below the gesture clamp of 20) supplied
through updateMaskRect is stored verbatim, and unnamed fields keep their
values. -/
theorem updateMaskRect_contract_witness :
    maskedState.maskRect = some { x := 30, y := 40, width := 100, height := 60 }
    ∧ updateMaskRect { width := some 5 } maskedState
        = { maskedState with maskRect := some { x := 30, y := 40, width := 5, height := 60 } } :=
  ⟨rfl,
   (updateMaskRect_contract maskedState { width := some 5 }).2
     { x := 30, y := 40, width := 100, height := 60 } rfl⟩

/-- C3: a mask-resize move with initial rectangle initialRect and screen
delta (clientX - startX, clientY - startY), converted to intrinsic pixels
by dividing by viewScale * bgScale, sets width to max 20 of the grown
width, height likewise, and shifts the center by half the size delta in
each axis; the resulting width and height are never below 20. -/
theorem mask_resize_contract (s : CanvasState) (initialRect m : MaskRect)
    (startX startY clientX clientY viewScale bgScale : ℚ)
    (hm : s.maskRect = some m) :
    maskResizeMove s initialRect startX startY clientX clientY viewScale bgScale
      = { s with maskRect := some ⟨
            initialRect.x + (max 20 (initialRect.width + (clientX - startX) / (viewScale * bgScale)) - initialRect.width) / 2,
            initialRect.y + (max 20 (initialRect.height + (clientY - startY) / (viewScale * bgScale)) - initialRect.height) / 2,
            max 20 (initialRect.width + (clientX - startX) / (viewScale * bgScale)),
            max 20 (initialRect.height + (clientY - startY) / (viewScale * bgScale))⟩ }
    ∧ ∀ r, (maskResizeMove s initialRect startX startY clientX clientY viewScale bgScale).maskRect
        = some r → 20 ≤ r.width ∧ 20 ≤ r.height := by
  have h1 : maskResizeMove s initialRect startX startY clientX clientY viewScale bgScale
      = { s with maskRect := some ⟨
            initialRect.x + (max 20 (initialRect.width + (clientX - startX) / (viewScale * bgScale)) - initialRect.width) / 2,
            initialRect.y + (max 20 (initialRect.height + (clientY - startY) / (viewScale * bgScale)) - initialRect.height) / 2,
            max 20 (initialRect.width + (clientX - startX) / (viewScale * bgScale)),
            max 20 (initialRect.height + (clientY - startY) / (viewScale * bgScale))⟩ } := by
    unfold maskResizeMove updateMaskRect
    rw [hm]
    rfl
  refine ⟨h1, ?_⟩
  intro r hr
  rw [h1] at hr
  simp only [Option.some.injEq] at hr
  rw [← hr]
  exact ⟨le_max_left _ _, le_max_left _ _⟩

/-- C3 witness: a resize by screen delta (-1000, 6) at total scale 1 clamps
the width at 20 and grows the height to 56, re-centering accordingly. -/
theorem mask_resize_contract_witness :
    (maskResizeMove maskedState { x := 10, y := 20, width := 100, height := 50 } 0 0 (-1000) 6 1 1).maskRect
      = some { x := 10 + (max 20 (100 + ((-1000) - 0) / (1 * 1)) - 100) / 2
               y := 20 + (max 20 (50 + (6 - 0) / (1 * 1)) - 50) / 2
               width := max 20 (100 + ((-1000) - 0) / (1 * 1))
               height := max 20 (50 + (6 - 0) / (1 * 1)) }
    ∧ (20 : ℚ) ≤ max 20 (100 + ((-1000) - 0) / (1 * 1)) := by
  have h := mask_resize_contract maskedState { x := 10, y := 20, width := 100, height := 50 }
    { x := 30, y := 40, width := 100, height := 60 } 0 0 (-1000) 6 1 1 rfl
  exact ⟨by rw [h.1], (h.2 _ (by rw [h.1])).1⟩

/-- C5 counterexample: deleting the non-existent id "b" from a state whose
only layer has id "a" and is selected is not a no-op — the layer list is
unchanged but the selection is cleared, so the state differs. -/
theorem deleteLayer_noop_counterexample :
    selectedOneLayerState.layers.map TextLayer.id = ["a"]
    ∧ (deleteLayer "b" selectedOneLayerState).layers = selectedOneLayerState.layers
    ∧ selectedOneLayerState.selectedLayerId = some "a"
    ∧ (deleteLayer "b" selectedOneLayerState).selectedLayerId = none
    ∧ deleteLayer "b" selectedOneLayerState ≠ selectedOneLayerState := by
  refine ⟨rfl, rfl, rfl, rfl, ?_⟩
  intro h
  have h2 := congrArg CanvasState.selectedLayerId h
  simp [deleteLayer, selectedOneLayerState] at h2

/-- C5 (amended): deleteLayer removes exactly the layer with the given id,
keeping every other layer unchanged and in order, and always clears the
selection — including when the id is absent, in which case the layer list
is untouched but the selection is still cleared. -/
theorem deleteLayer_contract (s : CanvasState) (pre post : List TextLayer) (l : TextLayer)
    (hlayers : s.layers = pre ++ l :: post)
    (hpre : ∀ p ∈ pre, p.id ≠ l.id) (hpost : ∀ p ∈ post, p.id ≠ l.id) :
    deleteLayer l.id s = { s with layers := pre ++ post, selectedLayerId := none }
    ∧ ∀ otherId, (∀ p ∈ s.layers, p.id ≠ otherId) →
        deleteLayer otherId s = { s with selectedLayerId := none } := by
  constructor
  · unfold deleteLayer
    rw [hlayers, List.filter_append, filter_ne_id pre l.id hpre]
    simp only [List.filter_cons, bne_self_eq_false, Bool.false_eq_true, if_false,
      filter_ne_id post l.id hpost]
  · intro otherId hother
    unfold deleteLayer
    rw [filter_ne_id s.layers otherId hother]

/-- C5 witness: deleting the selected layer "a" removes it and clears the
selection. -/
theorem deleteLayer_contract_witness :
    deleteLayer "a" selectedOneLayerState
      = { selectedOneLayerState with layers := [], selectedLayerId := none } :=
  (deleteLayer_contract selectedOneLayerState [] [] layerA rfl (by simp) (by simp)).1

/-- C2: a pointer move of an active layer drag with screen movement delta
(movementX, movementY) at view scale viewScale changes exactly the dragged
layer, adding movement divided by viewScale alone to its position, and
leaves every other layer and every other state field unchanged; the result
does not depend on the background transform. -/
theorem layer_drag_contract (s : CanvasState) (pre post : List TextLayer) (l : TextLayer)
    (viewScale movementX movementY : ℚ)
    (hsel : s.selectedLayerId = some l.id)
    (hlayers : s.layers = pre ++ l :: post)
    (hpre : ∀ p ∈ pre, p.id ≠ l.id) (hpost : ∀ p ∈ post, p.id ≠ l.id) :
    layerDragMove s viewScale movementX movementY
      = { s with layers := pre ++
          { l with x := l.x + movementX / viewScale
                   y := l.y + movementY / viewScale } :: post }
    ∧ ∀ bt, (layerDragMove { s with backgroundTransform := bt } viewScale movementX movementY).layers
        = (layerDragMove s viewScale movementX movementY).layers := by
  have key : ∀ t : CanvasState, t.selectedLayerId = some l.id → t.layers = pre ++ l :: post →
      layerDragMove t viewScale movementX movementY
        = { t with layers := pre ++
            { l with x := l.x + movementX / viewScale
                     y := l.y + movementY / viewScale } :: post } := by
    intro t hts htl
    unfold layerDragMove
    rw [hts]
    simp only [htl, find_append_cons pre post l hpre, updateLayer, List.map_append,
      List.map_cons, map_update_ne pre l.id _ hpre, map_update_ne post l.id _ hpost]
    simp [applyLayerPatch]
    exact hts
  refine ⟨key s hsel hlayers, ?_⟩
  intro bt
  rw [key { s with backgroundTransform := bt } hsel hlayers, key s hsel hlayers]

/-- C2 witness: dragging the selected layer "a" by screen delta (10, 6) at
view scale 2 moves it by (5, 3) in canvas-logical space and changes
nothing else. -/
theorem layer_drag_contract_witness :
    layerDragMove selectedOneLayerState 2 10 6
      = { selectedOneLayerState with
          layers := [{ layerA with x := layerA.x + 10 / 2, y := layerA.y + 6 / 2 }] } :=
  (layer_drag_contract selectedOneLayerState [] [] layerA 2 10 6 rfl rfl
    (by simp) (by simp)).1

/-- C4 counterexample: updateBackgroundImage replaces the background image
(the AI-inpainting result path) but keeps the old background transform
(offset (7,3), not zero) and does not clear the mask state — so not every
replacement of the background image recomputes the cover transform. -/
theorem background_cover_counterexample :
    (updateBackgroundImage "new" staleTransformState).backgroundImage = some "new"
    ∧ (updateBackgroundImage "new" staleTransformState).backgroundTransform
        = { x := 7, y := 3, scale := 2 }
    ∧ (updateBackgroundImage "new" staleTransformState).backgroundTransform.x ≠ 0
    ∧ (updateBackgroundImage "new" staleTransformState).maskRect ≠ none := by
  refine ⟨rfl, rfl, ?_, ?_⟩
  · show (7 : ℚ) ≠ 0
    norm_num
  · exact Option.some_ne_none _

/-- C4 (amended): replacement through the upload path recomputes the
background transform to the cover scale max(viewportWidth / imgWidth,
600 / imgHeight) with zero offset and clears the mask state, and that
scale satisfies the cover invariant (scaled image covers the viewport,
whose width is 600 for SQUARE and 337.5 for STORY); replacement through
updateBackgroundImage swaps only the image string and leaves every other
field unchanged. -/
theorem background_cover_contract (s : CanvasState) (imgSrc : String) (imgWidth imgHeight : ℚ)
    (hw : 0 < imgWidth) (hh : 0 < imgHeight) :
    (handleImageUpload imgSrc imgWidth imgHeight s).backgroundTransform
        = { x := 0, y := 0,
            scale := max (uiWidthFor s.aspectRatio / imgWidth) (600 / imgHeight) }
    ∧ (handleImageUpload imgSrc imgWidth imgHeight s).isMaskMode = false
    ∧ (handleImageUpload imgSrc imgWidth imgHeight s).maskRect = none
    ∧ uiWidthFor s.aspectRatio
        ≤ (handleImageUpload imgSrc imgWidth imgHeight s).backgroundTransform.scale * imgWidth
    ∧ (600 : ℚ)
        ≤ (handleImageUpload imgSrc imgWidth imgHeight s).backgroundTransform.scale * imgHeight
    ∧ uiWidthFor AspectRatio.SQUARE = 600
    ∧ uiWidthFor AspectRatio.STORY = 337.5
    ∧ ∀ newImage, updateBackgroundImage newImage s = { s with backgroundImage := some newImage } := by
  refine ⟨rfl, rfl, rfl, ?_, ?_, rfl, by norm_num [uiWidthFor], fun _ => rfl⟩
  · show uiWidthFor s.aspectRatio
        ≤ max (uiWidthFor s.aspectRatio / imgWidth) (600 / imgHeight) * imgWidth
    exact (div_le_iff₀ hw).mp (le_max_left _ _)
  · show (600 : ℚ)
        ≤ max (uiWidthFor s.aspectRatio / imgWidth) (600 / imgHeight) * imgHeight
    exact (div_le_iff₀ hh).mp (le_max_right _ _)

/-- C4 witness: uploading an 800 by 400 image over the square viewport
yields the cover transform, and the cover inequality holds concretely. -/
theorem background_cover_contract_witness :
    (0 : ℚ) < 800 ∧ (0 : ℚ) < 400
    ∧ (handleImageUpload "img" 800 400 initialState).backgroundTransform
        = { x := 0, y := 0, scale := max (uiWidthFor initialState.aspectRatio / 800) (600 / 400) }
    ∧ (600 : ℚ) ≤ (handleImageUpload "img" 800 400 initialState).backgroundTransform.scale * 400 := by
  have h := background_cover_contract initialState "img" 800 400 (by norm_num) (by norm_num)
  exact ⟨by norm_num, by norm_num, h.1, h.2.2.2.2.1⟩

/-- C1 counterexample: selectLayer writes the id verbatim and leaves mask
mode on, so calling it with a non-null id while mask mode is active ends
in a state where a layer is selected and mask mode is still active —
selectLayer does not force mask mode off, and the mutual-exclusion
invariant is violated after a public state-mutating operation. -/
theorem mutual_exclusion_counterexample :
    maskModeState.isMaskMode = true
    ∧ (selectLayer (some "a") maskModeState).selectedLayerId = some "a"
    ∧ (selectLayer (some "a") maskModeState).isMaskMode = true
    ∧ ¬ selectionMaskExclusive (selectLayer (some "a") maskModeState) := by
  refine ⟨rfl, rfl, rfl, ?_⟩
  intro h
  rcases h with h | h
  · exact Option.noConfusion h
  · exact Bool.noConfusion h

/-- C1 (amended): setMaskMode(true) forces selectedLayerId to none, and
every public state-mutating operation except selectLayer yields a state
satisfying the selection/mask-mode mutual-exclusion invariant when it held
before; selectLayer leaves mask mode unchanged (it does not force it off —
the UI instead refuses layer clicks while mask mode is active). -/
theorem mutual_exclusion_contract (s : CanvasState)
    (h : selectionMaskExclusive s)
    (ratio : AspectRatio) (imgSrc : String) (imgWidth imgHeight : ℚ)
    (bu : BackgroundTransformPatch) (newImage : String) (newId : String)
    (uid : String) (lu : TextLayerPatch) (did : String)
    (active : Bool) (mu : MaskRectPatch) (sid : Option String) :
    selectionMaskExclusive (handleAspectRatioChange ratio s)
    ∧ selectionMaskExclusive (handleImageUpload imgSrc imgWidth imgHeight s)
    ∧ selectionMaskExclusive (updateBackgroundTransform bu s)
    ∧ selectionMaskExclusive (updateBackgroundImage newImage s)
    ∧ selectionMaskExclusive (addLayer newId s)
    ∧ selectionMaskExclusive (updateLayer uid lu s)
    ∧ selectionMaskExclusive (deleteLayer did s)
    ∧ selectionMaskExclusive (toggleMaskMode active s)
    ∧ selectionMaskExclusive (updateMaskRect mu s)
    ∧ (toggleMaskMode true s).selectedLayerId = none
    ∧ (selectLayer sid s).isMaskMode = s.isMaskMode := by
  unfold selectionMaskExclusive at h ⊢
  exact ⟨h, Or.inr rfl, h, h, Or.inr rfl, h, Or.inl rfl, Or.inl rfl, h, rfl, rfl⟩

/-- C1 witness: the invariant holds on a concrete state with a selected
layer, is preserved by deleteLayer there, and toggling mask mode on
deselects. -/
theorem mutual_exclusion_contract_witness :
    selectionMaskExclusive selectedOneLayerState
    ∧ (toggleMaskMode true selectedOneLayerState).selectedLayerId = none
    ∧ selectionMaskExclusive (deleteLayer "a" selectedOneLayerState) :=
  ⟨Or.inr rfl,
   (mutual_exclusion_contract selectedOneLayerState (Or.inr rfl) .SQUARE "i" 1 1 {} "n" "x"
      "u" {} "a" true {} none).2.2.2.2.2.2.2.2.2.1,
   (mutual_exclusion_contract selectedOneLayerState (Or.inr rfl) .SQUARE "i" 1 1 {} "n" "x"
      "u" {} "a" true {} none).2.2.2.2.2.2.1⟩

/-- C7: for a vertical-orientation layer, the export renderer draws the
character at line i, position j as a fillText call whose x-coordinate is
layer.x * scaleFactor - i * lineHeight plus the horizontal nudge of
(lineHeight - fontSize * scaleFactor) / 2, and whose y-coordinate is
layer.y * scaleFactor + j * lineHeight, with
lineHeight = fontSize * scaleFactor * 1.2; in particular the text
consisting of the line A and the line B yields exactly two columns —
line 0 at x * scaleFactor, line 1 shifted left by one lineHeight — each
with one stacked character. -/
theorem vertical_layout_contract (layer : TextLayer) (scaleFactor : ℚ)
    (hv : layer.orientation = Orientation.vertical) :
    (∀ (i j : ℕ) (hi : i < (jsSplitLines layer.text).length)
        (hj : j < ((jsSplitLines layer.text).get ⟨i, hi⟩).toList.length),
        ({ text := String.mk [((jsSplitLines layer.text).get ⟨i, hi⟩).toList.get ⟨j, hj⟩]
           x := layer.x * scaleFactor - (i : ℚ) * (layer.fontSize * scaleFactor * (6 / 5))
                + ((layer.fontSize * scaleFactor * (6 / 5)) - layer.fontSize * scaleFactor) / 2
           y := layer.y * scaleFactor + (j : ℚ) * (layer.fontSize * scaleFactor * (6 / 5)) }
          : TextDrawCall)
          ∈ layerDrawCalls layer scaleFactor)
    ∧ (layer.text = "A\nB" →
        layerDrawCalls layer scaleFactor =
          [{ text := "A"
             x := layer.x * scaleFactor
                  + ((layer.fontSize * scaleFactor * (6 / 5)) - layer.fontSize * scaleFactor) / 2
             y := layer.y * scaleFactor },
           { text := "B"
             x := layer.x * scaleFactor - layer.fontSize * scaleFactor * (6 / 5)
                  + ((layer.fontSize * scaleFactor * (6 / 5)) - layer.fontSize * scaleFactor) / 2
             y := layer.y * scaleFactor }]) := by
  constructor
  · intro i j hi hj
    unfold layerDrawCalls
    rw [hv]
    refine List.mem_flatMap.mpr
      ⟨(i, (jsSplitLines layer.text).get ⟨i, hi⟩), mem_enum_get _ i hi, ?_⟩
    exact List.mem_map.mpr
      ⟨(j, ((jsSplitLines layer.text).get ⟨i, hi⟩).toList.get ⟨j, hj⟩),
       mem_enum_get _ j hj, rfl⟩
  · intro ht
    unfold layerDrawCalls
    rw [hv, ht]
    show [({ text := "A"
             x := layer.x * scaleFactor - ((0 : ℕ) : ℚ) * (layer.fontSize * scaleFactor * (6 / 5))
                  + ((layer.fontSize * scaleFactor * (6 / 5)) - layer.fontSize * scaleFactor) / 2
             y := layer.y * scaleFactor + ((0 : ℕ) : ℚ) * (layer.fontSize * scaleFactor * (6 / 5)) }
           : TextDrawCall),
          { text := "B"
            x := layer.x * scaleFactor - ((1 : ℕ) : ℚ) * (layer.fontSize * scaleFactor * (6 / 5))
                 + ((layer.fontSize * scaleFactor * (6 / 5)) - layer.fontSize * scaleFactor) / 2
            y := layer.y * scaleFactor + ((0 : ℕ) : ℚ) * (layer.fontSize * scaleFactor * (6 / 5)) }] = _
    simp [TextDrawCall.mk.injEq]

/-- C7 witness: the vertical two-line layer rendered at scale factor 2
produces exactly the two claimed single-character columns. -/
theorem vertical_layout_contract_witness :
    layerDrawCalls verticalLayer 2 =
      [{ text := "A"
         x := verticalLayer.x * 2
              + ((verticalLayer.fontSize * 2 * (6 / 5)) - verticalLayer.fontSize * 2) / 2
         y := verticalLayer.y * 2 },
       { text := "B"
         x := verticalLayer.x * 2 - verticalLayer.fontSize * 2 * (6 / 5)
              + ((verticalLayer.fontSize * 2 * (6 / 5)) - verticalLayer.fontSize * 2) / 2
         y := verticalLayer.y * 2 }] :=
  (vertical_layout_contract verticalLayer 2 rfl).2 rfl

end PhotoEdit
